import Mathlib

/-!
Formal model of `pipelines/dsoaws/pipeline.py`, the SageMaker BERT
pipeline definition builder (`get_pipeline`).

Two layers of the source are embedded:

* a structural layer: the descriptor objects (pipeline parameters, steps,
  the condition, the model-metrics source and the pipeline aggregate)
  exactly as the source text declares them;
* a dynamic layer: Python name resolution over the ordered statement list
  of `get_pipeline`, which decides whether the call can complete at all
  (the source contains several references to names that are either never
  defined or defined only later by a function-local import).

Numeric literals of the source are embedded as exact rationals.
-/

namespace Dsoaws

/-- A Python value that a pipeline Parameter default can hold
(string, integer, or float — floats embedded as exact rationals). -/
inductive PValue where
  | s (v : String)
  | i (v : Int)
  | f (v : ℚ)
deriving DecidableEq, Repr

/-- The declared type of a pipeline Parameter (`ParameterString`,
`ParameterInteger`, `ParameterFloat`). -/
inductive PType where
  | str
  | int
  | float
deriving DecidableEq, Repr

/-- The declared type of a value. -/
def ptypeOf : PValue → PType
  | .s _ => .str
  | .i _ => .int
  | .f _ => .float

/-- Decimal digits of the fraction `r / d` (with `r < d`), fuel-bounded,
by repeated long division — the digits Python prints for a float whose
value is a short exact decimal. -/
def fracDigits : Nat → Nat → Nat → String
  | 0, _, _ => ""
  | fuel + 1, r, d =>
    if r = 0 then ""
    else toString (r * 10 / d) ++ fracDigits fuel (r * 10 % d) d

/-- Python `str` of a nonnegative float given as numerator and
denominator of a reduced fraction. -/
def pyFloatStrNN (n d : Nat) : String :=
  toString (n / d) ++ (if n % d = 0 then ".0" else "." ++ fracDigits 17 (n % d) d)

/-- Python `str` of a float (the numerator sign of a normalized rational
decides the sign). -/
def pyFloatStr (q : ℚ) : String :=
  if q.num < 0 then "-" ++ pyFloatStrNN (-q.num).toNat q.den
  else pyFloatStrNN q.num.toNat q.den

/-- Python `str(...)` applied to a parameter default value, as done in the
`job_arguments` lists of the source. -/
def pyStr : PValue → String
  | .s v => v
  | .i v => toString v
  | .f v => pyFloatStr v

/-- A pipeline `Parameter`: a named, typed, defaulted value exposed for
override at submission time. -/
structure Parameter where
  name : String
  ptype : PType
  defaultValue : PValue
deriving DecidableEq, Repr

/-- A string-valued expression occurring in a step declaration: either a
literal string fixed at build time, or a reference resolved by the
orchestrator at run time — a Parameter object, a step-properties output
reference (`<var>.properties.ProcessingOutputConfig.Outputs[name].S3Output.S3Uri`),
a model-artifact reference (`<var>.properties.ModelArtifacts.S3ModelArtifacts`),
or a bare Python variable. -/
inductive SVal where
  | lit (s : String)
  | paramRef (pname : String)
  | stepOutputRef (stepVar outName : String)
  | modelArtifactRef (stepVar : String)
  | nameRef (var : String)
deriving DecidableEq, Repr

/-- A `ProcessingInput` as constructed in the source. -/
structure ProcessingInputDef where
  inputName : Option String
  source : SVal
  destination : String
  s3DataDistributionType : Option String
deriving DecidableEq, Repr

/-- A `ProcessingOutput` as constructed in the source. -/
structure ProcessingOutputDef where
  outputName : String
  s3UploadMode : String
  source : String
deriving DecidableEq, Repr

/-- A `PropertyFile` as constructed in the source. -/
structure PropertyFileDef where
  name : String
  outputName : String
  path : String
deriving DecidableEq, Repr

/-- A `ProcessingStep` as constructed in the source (used both for the
processing step and the evaluation step). -/
structure ProcessingStepDef where
  name : String
  inputs : List ProcessingInputDef
  outputs : List ProcessingOutputDef
  jobArguments : List SVal
  code : String
  propertyFiles : List PropertyFileDef
deriving DecidableEq, Repr

/-- One named `TrainingInput` channel of the training step. -/
structure TrainingInputDef where
  channel : String
  s3Data : SVal
  contentType : String
deriving DecidableEq, Repr

/-- The `TrainingStep` together with the estimator fields the claims
concern (the estimator output path `model_path`). -/
structure TrainingStepDef where
  name : String
  inputs : List TrainingInputDef
  outputPath : String
deriving DecidableEq, Repr

/-- The `RegisterModel` step collection as constructed in the source. -/
structure RegisterModelDef where
  name : String
  imageUri : String
  modelData : SVal
  contentTypes : List String
  responseTypes : List String
  inferenceInstances : List SVal
  transformInstances : List SVal
  modelPackageGroupName : String
  approvalStatus : SVal
deriving DecidableEq, Repr

/-- A `ConditionGreaterThanOrEqualTo` whose left side is a
`JsonGet(step, property_file, json_path)` and whose right side is a
literal threshold. -/
structure ConditionDef where
  stepName : String
  propertyFile : PropertyFileDef
  jsonPath : String
  threshold : ℚ
deriving DecidableEq, Repr

/-- A top-level pipeline step: processing, training, model registration,
or a condition step holding its two branches. -/
inductive StepDef where
  | processing (p : ProcessingStepDef)
  | training (t : TrainingStepDef)
  | registerModel (r : RegisterModelDef)
  | condition (name : String) (conditions : List ConditionDef)
      (ifSteps elseSteps : List StepDef)

/-- The display name of a step. -/
def stepName : StepDef → String
  | .processing p => p.name
  | .training t => t.name
  | .registerModel r => r.name
  | .condition n _ _ _ => n

/-- The if-branch of a condition step (empty for other steps). -/
def condIfSteps : StepDef → List StepDef
  | .condition _ _ i _ => i
  | _ => []

/-- The else-branch of a condition step (empty for other steps). -/
def condElseSteps : StepDef → List StepDef
  | .condition _ _ _ e => e
  | _ => []

/-- The `Pipeline` aggregate: name, parameters and top-level steps. -/
structure PipelineDef where
  name : String
  parameters : List Parameter
  steps : List StepDef

/-- Module-level state and the values the external SDK or session
supplies: the session default bucket (`bucket = sess.default_bucket()`),
the module-load `timestamp` string, `BASE_DIR`, the retrieved inference
image URI, and the S3 URI the SDK generates for a step output (keyed by
step name and output name). -/
structure Globals where
  bucket : String
  timestamp : String
  baseDir : String
  inferenceImageUri : String
  outS3Uri : String → String → String

/-- The arguments of `get_pipeline`; the field `baseJobPfx` stands for
the Python argument `base_job_prefix`. -/
structure Args where
  region : String
  role : String
  default_bucket : String
  pipeline_name : String
  model_package_group_name : String
  baseJobPfx : String
deriving DecidableEq, Repr

/-! The parameter declarations of `get_pipeline`, in source order. -/

/-- `input_data = ParameterString(name="InputDataUrl", default_value="s3://{}/amazon-reviews-pds/tsv/".format(bucket))`
— note the default is formatted from the module-level `bucket`, not from
the `default_bucket` argument. -/
def input_data (g : Globals) : Parameter :=
  ⟨"InputDataUrl", .str, .s ("s3://" ++ g.bucket ++ "/amazon-reviews-pds/tsv/")⟩

/-- `processing_instance_count = ParameterInteger(..., default_value=1)` -/
def processing_instance_count : Parameter :=
  ⟨"ProcessingInstanceCount", .int, .i 1⟩

/-- `processing_instance_type = ParameterString(..., default_value="ml.c5.2xlarge")` -/
def processing_instance_type : Parameter :=
  ⟨"ProcessingInstanceType", .str, .s "ml.c5.2xlarge"⟩

/-- `max_seq_length = ParameterInteger(..., default_value=64)` -/
def max_seq_length : Parameter :=
  ⟨"MaxSeqLength", .int, .i 64⟩

/-- `balance_dataset = ParameterString(..., default_value="True")` -/
def balance_dataset : Parameter :=
  ⟨"BalanceDataset", .str, .s "True"⟩

/-- `train_split_percentage = ParameterFloat(..., default_value=0.90)` -/
def train_split_percentage : Parameter :=
  ⟨"TrainSplitPercentage", .float, .f (Rat.mk' 9 10)⟩

/-- `validation_split_percentage = ParameterFloat(..., default_value=0.05)` -/
def validation_split_percentage : Parameter :=
  ⟨"ValidationSplitPercentage", .float, .f (Rat.mk' 1 20)⟩

/-- `test_split_percentage = ParameterFloat(..., default_value=0.05)` -/
def test_split_percentage : Parameter :=
  ⟨"TestSplitPercentage", .float, .f (Rat.mk' 1 20)⟩

/-- `feature_store_offline_prefix = ParameterString(..., default_value="reviews-feature-store-" + str(timestamp))`
(the Lean name drops the trailing word of the Python one). -/
def feature_store_offline_pfx (g : Globals) : Parameter :=
  ⟨"FeatureStoreOfflinePrefix", .str, .s ("reviews-feature-store-" ++ g.timestamp)⟩

/-- `feature_group_name = ParameterString(..., default_value="reviews-feature-group-" + str(timestamp))` -/
def feature_group_name (g : Globals) : Parameter :=
  ⟨"FeatureGroupName", .str, .s ("reviews-feature-group-" ++ g.timestamp)⟩

/-- `train_instance_type = ParameterString(..., default_value="ml.c5.9xlarge")` -/
def train_instance_type : Parameter :=
  ⟨"TrainingInstanceType", .str, .s "ml.c5.9xlarge"⟩

/-- `train_instance_count = ParameterInteger(..., default_value=1)` -/
def train_instance_count : Parameter :=
  ⟨"TrainingInstanceCount", .int, .i 1⟩

/-- `model_approval_status = ParameterString(..., default_value="PendingManualApproval")` -/
def model_approval_status : Parameter :=
  ⟨"ModelApprovalStatus", .str, .s "PendingManualApproval"⟩

/-- `deploy_instance_type = ParameterString(..., default_value="ml.m5.4xlarge")` -/
def deploy_instance_type : Parameter :=
  ⟨"DeployInstanceType", .str, .s "ml.m5.4xlarge"⟩

/-- `deploy_instance_count = ParameterInteger(..., default_value=1)` -/
def deploy_instance_count : Parameter :=
  ⟨"DeployInstanceCount", .int, .i 1⟩

/-! The step declarations, in source order. -/

/-- The single `ProcessingInput` of the processing step: name
`raw-input-data`, source the `InputDataUrl` Parameter object, destination
`/opt/ml/processing/input/data/`, distribution `ShardedByS3Key`. -/
def processing_inputs : List ProcessingInputDef :=
  [⟨some "raw-input-data", .paramRef "InputDataUrl",
    "/opt/ml/processing/input/data/", some "ShardedByS3Key"⟩]

/-- The three `ProcessingOutput`s of the processing step. -/
def processing_outputs : List ProcessingOutputDef :=
  [⟨"bert-train", "EndOfJob", "/opt/ml/processing/output/bert/train"⟩,
   ⟨"bert-validation", "EndOfJob", "/opt/ml/processing/output/bert/validation"⟩,
   ⟨"bert-test", "EndOfJob", "/opt/ml/processing/output/bert/test"⟩]

/-- The `ProcessingStep(name="Processing", ...)` declaration: its
`job_arguments` are `str(<parameter>.default_value)` literals, rendered at
build time, not the Parameter objects themselves. -/
def processing_step (g : Globals) : ProcessingStepDef :=
  { name := "Processing"
    inputs := processing_inputs
    outputs := processing_outputs
    jobArguments :=
      [.lit "--train-split-percentage", .lit (pyStr train_split_percentage.defaultValue),
       .lit "--validation-split-percentage", .lit (pyStr validation_split_percentage.defaultValue),
       .lit "--test-split-percentage", .lit (pyStr test_split_percentage.defaultValue),
       .lit "--max-seq-length", .lit (pyStr max_seq_length.defaultValue),
       .lit "--balance-dataset", .lit (pyStr balance_dataset.defaultValue),
       .lit "--feature-store-offline-prefix", .lit (pyStr (feature_store_offline_pfx g).defaultValue),
       .lit "--feature-group-name", .lit (pyStr (feature_group_name g).defaultValue)]
    code := g.baseDir ++ "/preprocess-scikit-text-to-bert-feature-store.py"
    propertyFiles := [] }

/-- `model_path = f"s3://{default_bucket}/{base_job_prefix}/output/model"`
— built from the `default_bucket` argument. -/
def model_path (a : Args) : String :=
  "s3://" ++ a.default_bucket ++ "/" ++ a.baseJobPfx ++ "/output/model"

/-- The `TrainingStep(name='Train', ...)` declaration: its three named
input channels read `step_process.properties.ProcessingOutputConfig.Outputs[...]`
(the variable text is kept verbatim; `step_process` is never defined in
the function). `outputPath` is the estimator's `output_path=model_path`. -/
def training_step (a : Args) : TrainingStepDef :=
  { name := "Train"
    inputs :=
      [⟨"train", .stepOutputRef "step_process" "bert-train", "text/csv"⟩,
       ⟨"validation", .stepOutputRef "step_process" "bert-validation", "text/csv"⟩,
       ⟨"test", .stepOutputRef "step_process" "bert-test", "text/csv"⟩]
    outputPath := model_path a }

/-- `evaluation_report = PropertyFile(name='EvaluationReport', output_name='metrics', path='evaluation.json')` -/
def evaluation_report : PropertyFileDef :=
  ⟨"EvaluationReport", "metrics", "evaluation.json"⟩

/-- The `ProcessingStep(name='EvaluateBERTModel', ...)` declaration; its
second input reads the undefined variable `raw_input_data_s3_uri`
(kept verbatim as a name reference). -/
def evaluation_step : ProcessingStepDef :=
  { name := "EvaluateBERTModel"
    inputs :=
      [⟨none, .modelArtifactRef "training_step", "/opt/ml/processing/input/model", none⟩,
       ⟨none, .nameRef "raw_input_data_s3_uri", "/opt/ml/processing/input/data", none⟩]
    outputs := [⟨"metrics", "EndOfJob", "/opt/ml/processing/output/metrics/"⟩]
    jobArguments := [.lit "--max-seq-length", .lit (pyStr max_seq_length.defaultValue)]
    code := "evaluate_model_metrics.py"
    propertyFiles := [evaluation_report] }

/-- The S3 URI the SDK reports in `step.arguments["ProcessingOutputConfig"]["Outputs"][idx]["S3Output"]["S3Uri"]`
for the output at position `idx` of a processing step. -/
def stepArgsOutputUri (g : Globals) (st : ProcessingStepDef) (idx : Nat) : String :=
  match st.outputs.get? idx with
  | some o => g.outS3Uri st.name o.outputName
  | none => ""

/-- A `MetricsSource` descriptor. -/
structure MetricsSourceDef where
  s3Uri : String
  contentType : String
deriving DecidableEq, Repr

/-- `model_metrics = ModelMetrics(model_statistics=MetricsSource(s3_uri="{}/evaluation.json".format(evaluation_step.arguments[...]["Outputs"][0][...]), content_type="application/json"))` -/
def model_metrics (g : Globals) : MetricsSourceDef :=
  ⟨stepArgsOutputUri g evaluation_step 0 ++ "/evaluation.json", "application/json"⟩

/-- The `RegisterModel(name="RegisterBERTModel", ...)` declaration; its
`model_data` reads `step_train.properties.ModelArtifacts.S3ModelArtifacts`
(`step_train` is never defined in the function; kept verbatim). -/
def register_step (a : Args) (g : Globals) : RegisterModelDef :=
  { name := "RegisterBERTModel"
    imageUri := g.inferenceImageUri
    modelData := .modelArtifactRef "step_train"
    contentTypes := ["text/csv"]
    responseTypes := ["text/csv"]
    inferenceInstances := [.paramRef "DeployInstanceType"]
    transformInstances := [.paramRef "DeployInstanceType"]
    modelPackageGroupName := a.model_package_group_name
    approvalStatus := .paramRef "ModelApprovalStatus" }

/-- `minimum_accuracy_condition = ConditionGreaterThanOrEqualTo(left=JsonGet(step=evaluation_step, property_file=evaluation_report, json_path="metrics.accuracy.value"), right=0.01)` -/
def minimum_accuracy_condition : ConditionDef :=
  ⟨"EvaluateBERTModel", evaluation_report, "metrics.accuracy.value", Rat.mk' 1 100⟩

/-- `minimum_accuracy_condition_step = ConditionStep(name="AccuracyCondition", conditions=[...], if_steps=[register_step], else_steps=[])` -/
def minimum_accuracy_condition_step (a : Args) (g : Globals) : StepDef :=
  .condition "AccuracyCondition" [minimum_accuracy_condition]
    [.registerModel (register_step a g)] []

/-- The 15 Parameters passed to `Pipeline(parameters=[...])`, in source
order. -/
def pipelineParameters (g : Globals) : List Parameter :=
  [input_data g, processing_instance_count, processing_instance_type,
   max_seq_length, balance_dataset, train_split_percentage,
   validation_split_percentage, test_split_percentage,
   feature_store_offline_pfx g, feature_group_name g, train_instance_type,
   train_instance_count, model_approval_status, deploy_instance_type,
   deploy_instance_count]

/-- The `Pipeline(name=pipeline_name, parameters=[...], steps=[processing_step, training_step, evaluation_step, minimum_accuracy_condition_step], ...)`
aggregate: the register step is not in the active step list (it appears
commented out in the source). -/
def pipeline (a : Args) (g : Globals) : PipelineDef :=
  { name := a.pipeline_name
    parameters := pipelineParameters g
    steps :=
      [.processing (processing_step g), .training (training_step a),
       .processing evaluation_step, minimum_accuracy_condition_step a g] }

/-! Submission-time and run-time semantics of the descriptors. -/

/-- Modelled from the spec: Parameters are "exposed for override at
submission time"; substituting an override assignment into a step string
value replaces a Parameter reference by the overriding value and leaves
everything else unchanged (literals were rendered at build time). -/
def svalSubstParam (σ : String → Option String) : SVal → SVal
  | .paramRef n =>
    match σ n with
    | some v => .lit v
    | none => .paramRef n
  | v => v

/-- Modelled from the spec: submission-time resolution of one Parameter
under an override list — an override of the wrong declared type is the
platform-level "invalid parameter types" failure; absent an override the
default value applies. No range check of any kind exists. -/
def resolveParam (σ : List (String × PValue)) (p : Parameter) : Except String PValue :=
  match σ.lookup p.name with
  | some v => if ptypeOf v = p.ptype then .ok v else .error ("invalid parameter type: " ++ p.name)
  | none => .ok p.defaultValue

/-- Modelled from the spec: resolve every declared Parameter of a
pipeline under an override list. -/
def resolveParams (ps : List Parameter) (σ : List (String × PValue)) :
    Except String (List (String × PValue)) :=
  ps.mapM (fun p => (resolveParam σ p).map (fun v => (p.name, v)))

/-- Modelled from the spec: the external orchestrator evaluates a
`ConditionGreaterThanOrEqualTo` by comparing the metric extracted from
the property file against the threshold with greater-or-equal. -/
def conditionHolds (c : ConditionDef) (metric : ℚ) : Bool :=
  decide (c.threshold ≤ metric)

/-- Modelled from the spec: at run time the orchestrator executes the
if branch of a condition step when all its conditions hold on the
extracted metric, and the else branch otherwise. -/
def branchTaken (s : StepDef) (metric : ℚ) : List StepDef :=
  match s with
  | .condition _ conds ifS elseS =>
    if conds.all (fun c => conditionHolds c metric) then ifS else elseS
  | _ => []

/-- The bucket component of an `s3://bucket/key` URI: the characters
after the scheme up to the first slash. -/
def s3Bucket (uri : String) : String :=
  String.mk ((uri.data.drop 5).takeWhile (fun c => c != '/'))

/-! Dynamic layer: Python name resolution over the statement list of
`get_pipeline`.  A statement is abstracted by the names it binds and the
names it reads, in evaluation order.  A name read resolves if it is
already bound locally; otherwise, if it is a local of the function
(assigned by some later statement, including function-local imports) the
read fails (Python `UnboundLocalError`); otherwise it must be a module
global (else Python `NameError`). -/

/-- One Python statement, abstracted to the names it binds and reads. -/
structure Stmt where
  binds : List String
  reads : List String

/-- The module-level globals of `pipeline.py` visible inside
`get_pipeline`: the top-level imports, the module variables `sess`,
`bucket`, `timestamp`, `BASE_DIR`, and the builtins the body uses. -/
def moduleGlobals : List String :=
  ["os", "boto3", "logging", "time", "ClientError", "sagemaker",
   "smexperiments", "Experiment", "Estimator", "TrainingInput",
   "MetricsSource", "ModelMetrics", "ProcessingInput", "ProcessingOutput",
   "ScriptProcessor", "SKLearnProcessor", "ConditionGreaterThanOrEqualTo",
   "ConditionStep", "JsonGet", "ParameterInteger", "ParameterString",
   "ParameterFloat", "Pipeline", "PropertyFile", "ProcessingStep",
   "TrainingStep", "RegisterModel", "sess", "bucket", "timestamp",
   "BASE_DIR", "get_pipeline", "print", "str"]

/-- The parameter names of `get_pipeline`, bound at entry. -/
def argNames : List String :=
  ["region", "role", "default_bucket", "pipeline_name",
   "model_package_group_name", "base_job_prefix"]

/-- `processor = SKLearnProcessor(...)` — the callee name is read first;
`SKLearnProcessor` is a local of the function (re-imported by a later
function-local import), so this read comes before its assignment. -/
def processorStmt : Stmt :=
  ⟨["processor"],
   ["SKLearnProcessor", "role", "processing_instance_type",
    "processing_instance_count"]⟩

/-- `estimator = TensorFlow(...)` — the import of `TensorFlow` is
commented out in the source, so the name is defined nowhere. -/
def estimatorStmt : Stmt :=
  ⟨["estimator"],
   ["TensorFlow", "BASE_DIR", "role", "model_path", "train_instance_count",
    "train_instance_type", "train_volume_size", "epochs", "learning_rate",
    "epsilon", "train_batch_size", "validation_batch_size",
    "test_batch_size", "train_steps_per_epoch", "validation_steps",
    "test_steps", "use_xla", "use_amp", "max_seq_length",
    "freeze_bert_layer", "enable_sagemaker_debugger",
    "enable_checkpointing", "enable_tensorboard", "run_validation",
    "run_test", "run_sample_predictions", "input_mode",
    "metrics_definitions"]⟩

/-- `training_step = TrainingStep(...)` — its input channels read the
undefined name `step_process`. -/
def training_stepStmt : Stmt :=
  ⟨["training_step"],
   ["TrainingStep", "estimator", "TrainingInput", "step_process"]⟩

/-- `evaluation_step = ProcessingStep(...)` — its second input reads the
undefined name `raw_input_data_s3_uri`. -/
def evaluation_stepStmt : Stmt :=
  ⟨["evaluation_step"],
   ["ProcessingStep", "evaluation_processor", "ProcessingInput",
    "training_step", "raw_input_data_s3_uri", "ProcessingOutput", "str",
    "max_seq_length", "evaluation_report"]⟩

/-- `register_step = RegisterModel(...)` — its `model_data` reads the
undefined name `step_train`. -/
def register_stepStmt : Stmt :=
  ⟨["register_step"],
   ["RegisterModel", "estimator", "inference_image_uri", "step_train",
    "deploy_instance_type", "model_package_group_name",
    "model_approval_status"]⟩

/-- The body of `get_pipeline` as its ordered statement list. -/
def get_pipelineBody : List Stmt :=
  [⟨["sm"], ["boto3", "region"]⟩,
   ⟨["input_data"], ["ParameterString", "bucket"]⟩,
   ⟨["processing_instance_count"], ["ParameterInteger"]⟩,
   ⟨["processing_instance_type"], ["ParameterString"]⟩,
   ⟨["max_seq_length"], ["ParameterInteger"]⟩,
   ⟨["balance_dataset"], ["ParameterString"]⟩,
   ⟨["train_split_percentage"], ["ParameterFloat"]⟩,
   ⟨["validation_split_percentage"], ["ParameterFloat"]⟩,
   ⟨["test_split_percentage"], ["ParameterFloat"]⟩,
   ⟨["feature_store_offline_prefix"], ["ParameterString", "str", "timestamp"]⟩,
   ⟨["feature_group_name"], ["ParameterString", "str", "timestamp"]⟩,
   ⟨["train_instance_type"], ["ParameterString"]⟩,
   ⟨["train_instance_count"], ["ParameterInteger"]⟩,
   ⟨["model_approval_status"], ["ParameterString"]⟩,
   ⟨["deploy_instance_type"], ["ParameterString"]⟩,
   ⟨["deploy_instance_count"], ["ParameterInteger"]⟩,
   processorStmt,
   ⟨["processing_inputs"], ["ProcessingInput", "input_data"]⟩,
   ⟨["processing_outputs"], ["ProcessingOutput"]⟩,
   ⟨["processing_step"],
    ["ProcessingStep", "processor", "processing_inputs",
     "processing_outputs", "str", "train_split_percentage",
     "validation_split_percentage", "test_split_percentage",
     "max_seq_length", "balance_dataset", "feature_store_offline_prefix",
     "feature_group_name", "os", "BASE_DIR"]⟩,
   ⟨["epochs", "learning_rate", "epsilon", "train_batch_size",
     "validation_batch_size", "test_batch_size", "train_steps_per_epoch",
     "validation_steps", "test_steps", "train_volume_size", "use_xla",
     "use_amp", "freeze_bert_layer", "enable_sagemaker_debugger",
     "enable_checkpointing", "enable_tensorboard", "input_mode",
     "run_validation", "run_test", "run_sample_predictions"], []⟩,
   ⟨["metrics_definitions"], []⟩,
   ⟨["train_src"], ["os", "BASE_DIR"]⟩,
   ⟨["model_path"], ["default_bucket", "base_job_prefix"]⟩,
   ⟨[], ["print", "os", "BASE_DIR"]⟩,
   estimatorStmt,
   training_stepStmt,
   ⟨["SKLearnProcessor"], []⟩,
   ⟨["evaluation_processor"],
    ["SKLearnProcessor", "role", "processing_instance_type",
     "processing_instance_count", "region"]⟩,
   ⟨["PropertyFile"], []⟩,
   ⟨["evaluation_report"], ["PropertyFile"]⟩,
   evaluation_stepStmt,
   ⟨["MetricsSource", "ModelMetrics"], []⟩,
   ⟨["model_metrics"], ["ModelMetrics", "MetricsSource", "evaluation_step"]⟩,
   ⟨["inference_image_uri"], ["sagemaker", "region", "deploy_instance_type"]⟩,
   ⟨[], ["print", "inference_image_uri"]⟩,
   register_stepStmt,
   ⟨["ConditionGreaterThanOrEqualTo"], []⟩,
   ⟨["ConditionStep", "JsonGet"], []⟩,
   ⟨["minimum_accuracy_condition"],
    ["ConditionGreaterThanOrEqualTo", "JsonGet", "evaluation_step",
     "evaluation_report"]⟩,
   ⟨["minimum_accuracy_condition_step"],
    ["ConditionStep", "minimum_accuracy_condition", "register_step"]⟩,
   ⟨["pipeline"],
    ["Pipeline", "pipeline_name", "input_data", "processing_instance_count",
     "processing_instance_type", "max_seq_length", "balance_dataset",
     "train_split_percentage", "validation_split_percentage",
     "test_split_percentage", "feature_store_offline_prefix",
     "feature_group_name", "train_instance_type", "train_instance_count",
     "model_approval_status", "deploy_instance_type",
     "deploy_instance_count", "processing_step", "training_step",
     "evaluation_step", "minimum_accuracy_condition_step", "sess"]⟩,
   ⟨[], ["pipeline"]⟩]

/-- The compile-time local names of `get_pipeline`: its parameters plus
every name assigned anywhere in the body (including by function-local
imports). -/
def localNames : List String :=
  argNames ++ get_pipelineBody.flatMap (fun st => st.binds)

/-- Whether a read of name `n` resolves, given the names bound so far. -/
def nameResolves (bound : List String) (n : String) : Bool :=
  bound.contains n || (!(localNames.contains n) && moduleGlobals.contains n)

/-- Run a statement list: each statement first reads its names (failing
with the first name that does not resolve), then binds its targets. -/
def runBody (bound : List String) : List Stmt → Except String Unit
  | [] => .ok ()
  | st :: rest =>
    match st.reads.find? (fun n => !(nameResolves bound n)) with
    | some n => .error n
    | none => runBody (bound ++ st.binds) rest

/-- Calling `get_pipeline`: run the body with the arguments bound.  Name
resolution does not depend on the argument values, exactly as in Python. -/
def get_pipelineRun (_ : Args) : Except String Unit :=
  runBody argNames get_pipelineBody

/-! Theorems.  General helper lemmas first, then one theorem per claim. -/

/-- Taking characters up to the first slash from a slash-free list
followed by a slash returns exactly that list. -/
theorem takeWhile_until_slash (l1 l2 : List Char) (h : ∀ c ∈ l1, c ≠ '/') :
    List.takeWhile (fun c => c != '/') (l1 ++ '/' :: l2) = l1 := by
  induction l1 with
  | nil => simp
  | cons x xs ih =>
    have hx : x ≠ '/' := h x (List.mem_cons_self x xs)
    simp [List.takeWhile_cons, hx, ih (fun c hc => h c (List.mem_cons_of_mem x hc))]

/-- The bucket component of `s3://<b><tail>` is `<b>` whenever `b` is
slash-free and `tail` starts with a slash. -/
theorem s3Bucket_of_parts (b tail : String) (r : List Char)
    (hb : ∀ c ∈ b.data, c ≠ '/') (ht : tail.data = '/' :: r) :
    s3Bucket ("s3://" ++ b ++ tail) = b := by
  show String.mk (List.takeWhile (fun c => c != '/')
    (List.drop 5 ("s3://".data ++ b.data ++ tail.data))) = b
  rw [ht]
  show String.mk (List.takeWhile (fun c => c != '/') (b.data ++ '/' :: r)) = b
  rw [takeWhile_until_slash b.data r hb]

/-- C1: the claim says `get_pipeline` returns, for every valid input
tuple, a Pipeline whose parameter list is exactly the 15 declared
Parameters and whose top-level step list is exactly processing, training,
evaluation, condition, in that order.  The `Pipeline` aggregate declared
by the source has exactly that shape — but the call itself never returns
a value: name resolution over the body fails on every input (the first
failing read is `SKLearnProcessor`, used at the processor construction
before the function-local `from sagemaker.sklearn.processing import ...`
re-import that makes it a local; `TensorFlow`, `step_process`,
`raw_input_data_s3_uri` and `step_train` are further unresolvable reads). -/
theorem c1_pipeline_shape_but_call_never_returns :
    (∀ a : Args, get_pipelineRun a = .error "SKLearnProcessor") ∧
    (∀ (a : Args) (g : Globals),
      (pipeline a g).parameters.map Parameter.name =
        ["InputDataUrl", "ProcessingInstanceCount", "ProcessingInstanceType",
         "MaxSeqLength", "BalanceDataset", "TrainSplitPercentage",
         "ValidationSplitPercentage", "TestSplitPercentage",
         "FeatureStoreOfflinePrefix", "FeatureGroupName",
         "TrainingInstanceType", "TrainingInstanceCount",
         "ModelApprovalStatus", "DeployInstanceType", "DeployInstanceCount"] ∧
      (pipeline a g).steps.map stepName =
        ["Processing", "Train", "EvaluateBERTModel", "AccuracyCondition"] ∧
      (pipeline a g).steps =
        [.processing (processing_step g), .training (training_step a),
         .processing evaluation_step, minimum_accuracy_condition_step a g]) :=
  ⟨fun _ => rfl, fun _ _ => ⟨rfl, rfl, rfl⟩⟩

/-- C2: calling the builder fails at call time on every input with an
unresolved-name error and no locally handled error path; the training
step statement reads `step_process`, the evaluation step statement reads
`raw_input_data_s3_uri`, and the register step statement reads
`step_train`, none of which is ever defined in the function or present
among the module globals. -/
theorem c2_builder_fails_on_undefined_names :
    (∀ a : Args, ∃ n : String, get_pipelineRun a = .error n) ∧
    ("step_process" ∈ training_stepStmt.reads ∧
      "step_process" ∉ localNames ∧ "step_process" ∉ moduleGlobals) ∧
    ("raw_input_data_s3_uri" ∈ evaluation_stepStmt.reads ∧
      "raw_input_data_s3_uri" ∉ localNames ∧
      "raw_input_data_s3_uri" ∉ moduleGlobals) ∧
    ("step_train" ∈ register_stepStmt.reads ∧
      "step_train" ∉ localNames ∧ "step_train" ∉ moduleGlobals) :=
  ⟨fun _ => ⟨"SKLearnProcessor", rfl⟩,
   ⟨by decide, by decide, by decide⟩,
   ⟨by decide, by decide, by decide⟩,
   ⟨by decide, by decide, by decide⟩⟩

/-- C3: the training step's three named input channels `train`,
`validation`, `test` reference, by matching output name and in the same
order, exactly the processing step's three declared outputs `bert-train`,
`bert-validation`, `bert-test`. -/
theorem c3_training_channels_match_processing_outputs :
    ∀ (a : Args) (g : Globals),
      (training_step a).inputs.map TrainingInputDef.channel =
        ["train", "validation", "test"] ∧
      (training_step a).inputs.map TrainingInputDef.s3Data =
        (processing_step g).outputs.map
          (fun o => SVal.stepOutputRef "step_process" o.outputName) ∧
      (processing_step g).outputs.map ProcessingOutputDef.outputName =
        ["bert-train", "bert-validation", "bert-test"] :=
  fun _ _ => ⟨rfl, rfl, rfl⟩

/-- C4: the processing step has exactly one input (`raw-input-data`,
sourced from the `InputDataUrl` Parameter, sharded by S3 key) and exactly
three named outputs, and its job arguments are build-time string
renderings of the parameter defaults — so substituting any submission-time
override leaves the job arguments unchanged, while the same substitution
does change a Parameter reference such as the processing input source. -/
theorem c4_processing_shape_and_default_rendered_args (g : Globals) :
    (processing_step g).inputs =
      [⟨some "raw-input-data", .paramRef "InputDataUrl",
        "/opt/ml/processing/input/data/", some "ShardedByS3Key"⟩] ∧
    (processing_step g).outputs.map ProcessingOutputDef.outputName =
      ["bert-train", "bert-validation", "bert-test"] ∧
    (processing_step g).jobArguments =
      [.lit "--train-split-percentage", .lit "0.9",
       .lit "--validation-split-percentage", .lit "0.05",
       .lit "--test-split-percentage", .lit "0.05",
       .lit "--max-seq-length", .lit "64",
       .lit "--balance-dataset", .lit "True",
       .lit "--feature-store-offline-prefix",
       .lit ("reviews-feature-store-" ++ g.timestamp),
       .lit "--feature-group-name",
       .lit ("reviews-feature-group-" ++ g.timestamp)] ∧
    (∀ σ : String → Option String,
      (processing_step g).jobArguments.map (svalSubstParam σ) =
        (processing_step g).jobArguments) ∧
    (processing_step g).inputs.map
        (fun i => svalSubstParam (fun _ => some "s3://overridden/") i.source) =
      [.lit "s3://overridden/"] :=
  ⟨rfl, rfl, rfl, fun _ => rfl, rfl⟩

/-- C5: the evaluation step declares exactly one property file, named
`EvaluationReport` with output name `metrics` and path `evaluation.json`,
and the model-metrics descriptor's S3 URI is the string concatenation of
the S3 URI of the evaluation step's first (and only) declared output with
`/evaluation.json`. -/
theorem c5_property_file_and_metrics_uri (g : Globals) :
    evaluation_step.propertyFiles =
      [⟨"EvaluationReport", "metrics", "evaluation.json"⟩] ∧
    evaluation_report.path = "evaluation.json" ∧
    evaluation_report.outputName = "metrics" ∧
    evaluation_step.outputs.map ProcessingOutputDef.outputName = ["metrics"] ∧
    (model_metrics g).s3Uri =
      g.outS3Uri "EvaluateBERTModel" "metrics" ++ "/evaluation.json" ∧
    (model_metrics g).s3Uri =
      stepArgsOutputUri g evaluation_step 0 ++ "/evaluation.json" :=
  ⟨rfl, rfl, rfl, rfl, rfl, rfl⟩

/-- C6: the condition compares the metric at JSON path
`metrics.accuracy.value` from the evaluation step's property file against
the literal threshold 0.01 (embedded exactly as the rational 1/100); for
every metric value at least the threshold the branch taken is the
if branch containing exactly the registration step, and for every metric
value below it the branch taken is the declared empty else branch, so the
pipeline ends with no further steps. -/
theorem c6_condition_threshold_and_branching (a : Args) (g : Globals) :
    minimum_accuracy_condition.jsonPath = "metrics.accuracy.value" ∧
    minimum_accuracy_condition.propertyFile = evaluation_report ∧
    minimum_accuracy_condition.stepName = evaluation_step.name ∧
    minimum_accuracy_condition.threshold = Rat.mk' 1 100 ∧
    condElseSteps (minimum_accuracy_condition_step a g) = [] ∧
    (∀ m : ℚ, branchTaken (minimum_accuracy_condition_step a g) m =
      if Rat.mk' 1 100 ≤ m then [.registerModel (register_step a g)] else []) ∧
    branchTaken (minimum_accuracy_condition_step a g) (Rat.mk' 1 100) =
      [.registerModel (register_step a g)] ∧
    branchTaken (minimum_accuracy_condition_step a g) (Rat.mk' 9 1000) = [] := by
  refine ⟨rfl, rfl, rfl, rfl, rfl, ?_, rfl, rfl⟩
  intro m
  by_cases h : (Rat.mk' 1 100 : ℚ) ≤ m <;>
    simp [branchTaken, minimum_accuracy_condition_step, conditionHolds,
      minimum_accuracy_condition, h]

/-- C7: the registration step is constructed but absent from the
pipeline's active top-level step list, while being the sole element of
the condition step's if branch. -/
theorem c7_register_step_only_inside_condition (a : Args) (g : Globals) :
    (pipeline a g).steps.map stepName =
      ["Processing", "Train", "EvaluateBERTModel", "AccuracyCondition"] ∧
    condIfSteps (minimum_accuracy_condition_step a g) =
      [.registerModel (register_step a g)] ∧
    condElseSteps (minimum_accuracy_condition_step a g) = [] ∧
    StepDef.registerModel (register_step a g) ∉ (pipeline a g).steps := by
  refine ⟨rfl, rfl, rfl, ?_⟩
  simp [pipeline, minimum_accuracy_condition_step]

/-- C8: the builder performs no range validation on its Parameters — for
every combination of split-percentage override values, including ones
whose sum is not 1, submission-time resolution of the declared Parameters
succeeds and yields exactly the overridden splits together with the
other parameters' defaults (the only resolution failure that exists at
all is a declared-type mismatch, never a range check). -/
theorem c8_no_range_validation_of_splits (g : Globals) (t v te : ℚ) :
    resolveParams (pipelineParameters g)
      [("TrainSplitPercentage", .f t), ("ValidationSplitPercentage", .f v),
       ("TestSplitPercentage", .f te)] =
    .ok [("InputDataUrl", .s ("s3://" ++ g.bucket ++ "/amazon-reviews-pds/tsv/")),
         ("ProcessingInstanceCount", .i 1),
         ("ProcessingInstanceType", .s "ml.c5.2xlarge"),
         ("MaxSeqLength", .i 64),
         ("BalanceDataset", .s "True"),
         ("TrainSplitPercentage", .f t),
         ("ValidationSplitPercentage", .f v),
         ("TestSplitPercentage", .f te),
         ("FeatureStoreOfflinePrefix", .s ("reviews-feature-store-" ++ g.timestamp)),
         ("FeatureGroupName", .s ("reviews-feature-group-" ++ g.timestamp)),
         ("TrainingInstanceType", .s "ml.c5.9xlarge"),
         ("TrainingInstanceCount", .i 1),
         ("ModelApprovalStatus", .s "PendingManualApproval"),
         ("DeployInstanceType", .s "ml.m5.4xlarge"),
         ("DeployInstanceCount", .i 1)] :=
  rfl

/-- C9: two calls of the builder in the same process (same module
globals, hence the same timestamp) that differ only in the
`pipeline_name` argument yield descriptors equal in every component
except the name. -/
theorem c9_only_pipeline_name_differs :
    ∀ (a : Args) (g : Globals) (n1 n2 : String),
      pipeline { a with pipeline_name := n1 } g =
        { pipeline { a with pipeline_name := n2 } g with name := n1 } :=
  fun _ _ _ _ => rfl

/-- C10: the default of the `InputDataUrl` Parameter is formatted from
the module-level session bucket while the training model path is
formatted from the `default_bucket` argument, so whenever the two bucket
names differ (and are well-formed, i.e. slash-free), the default input
location and the model output location live in different buckets. -/
theorem c10_input_bucket_differs_from_model_bucket (g : Globals) (a : Args)
    (hg : ∀ c ∈ g.bucket.data, c ≠ '/')
    (ha : ∀ c ∈ a.default_bucket.data, c ≠ '/')
    (hne : g.bucket ≠ a.default_bucket) :
    (input_data g).defaultValue =
      .s ("s3://" ++ g.bucket ++ "/amazon-reviews-pds/tsv/") ∧
    (training_step a).outputPath =
      "s3://" ++ a.default_bucket ++ "/" ++ a.baseJobPfx ++ "/output/model" ∧
    s3Bucket ("s3://" ++ g.bucket ++ "/amazon-reviews-pds/tsv/") = g.bucket ∧
    s3Bucket (model_path a) = a.default_bucket ∧
    s3Bucket ("s3://" ++ g.bucket ++ "/amazon-reviews-pds/tsv/") ≠
      s3Bucket (model_path a) := by
  have h1 : s3Bucket ("s3://" ++ g.bucket ++ "/amazon-reviews-pds/tsv/") = g.bucket :=
    s3Bucket_of_parts g.bucket "/amazon-reviews-pds/tsv/"
      "amazon-reviews-pds/tsv/".data hg rfl
  have h2 : s3Bucket (model_path a) = a.default_bucket := by
    have hm : model_path a =
        "s3://" ++ a.default_bucket ++ ("/" ++ a.baseJobPfx ++ "/output/model") := by
      show "s3://" ++ a.default_bucket ++ "/" ++ a.baseJobPfx ++ "/output/model" = _
      simp [String.append_assoc]
    rw [hm]
    exact s3Bucket_of_parts a.default_bucket _
      (a.baseJobPfx.data ++ "/output/model".data) ha
      (by show ("/" ++ a.baseJobPfx ++ "/output/model").data = _; rfl)
  refine ⟨rfl, rfl, h1, h2, ?_⟩
  rw [h1, h2]
  exact hne

/-- Witness for C10 at concrete inputs: a session bucket
`session-bucket` and a builder argument bucket `artifact-bucket`. -/
theorem c10_input_bucket_differs_from_model_bucket_witness :
    (∀ c ∈ ("session-bucket" : String).data, c ≠ '/') ∧
    (∀ c ∈ ("artifact-bucket" : String).data, c ≠ '/') ∧
    ("session-bucket" : String) ≠ "artifact-bucket" ∧
    (s3Bucket ("s3://" ++ "session-bucket" ++ "/amazon-reviews-pds/tsv/") ≠
      s3Bucket (model_path ⟨"us-east-1", "arn:aws:iam::123456789012:role/service-role",
        "artifact-bucket", "bert-pipeline", "bert-group", "bert"⟩)) :=
  ⟨by decide, by decide, by decide,
   (c10_input_bucket_differs_from_model_bucket
      ⟨"session-bucket", "16000000000000000", "/opt/ml/code", "image-uri",
        fun _ _ => ""⟩
      ⟨"us-east-1", "arn:aws:iam::123456789012:role/service-role",
        "artifact-bucket", "bert-pipeline", "bert-group", "bert"⟩
      (by decide) (by decide) (by decide)).2.2.2.2⟩

end Dsoaws
